import Mathlib

/-!
Shallow embedding of src/create_icons.py.

The script draws a cartoon lion face with PIL (Pillow) and writes PNG/ICO
files.  We embed:

* the renderer create_lion_icon(size): an RGBA canvas plus an ordered list
  of PIL drawing primitives (opsOf) executed by runOps;
* the driver main(): directory creation and file writes over a small
  filesystem model.

Python arithmetic is modelled exactly: size / 512 is an exact binary float
for every realistic size (512 = 2 ^ 9, and products like 180 * (size / 512)
are exact below 2 ^ 44), so we use the rational scaleQ; Python int() is
truncation toward zero (pyInt).  PIL pixel semantics (which pixels a draw
call touches) are external library behaviour; they are modelled by the
decidable coverage predicates below: an ellipse paints exactly the pixels
whose centre lies in the closed ellipse inscribed in the (inclusive)
bounding box, an outline of width w paints a ring of that ellipse and is
skipped for width 0 (as ImageDraw does), a line of width w paints a band
around the segment, with width <= 1 painting the one-pixel line.  Every
coverage predicate paints only inside the op's bounding box, which is all
the general-size theorems use.
-/

set_option linter.unusedVariables false

/-- RGBA color with 8-bit channels, as in PIL color tuples. -/
structure Color where
  r : ℕ
  g : ℕ
  b : ℕ
  a : ℕ
deriving DecidableEq, Repr

/-- Square RGBA raster canvas: side length in pixels and the pixel map.
Only coordinates 0 ≤ x, y < size are meaningful (PIL clips writes to the
canvas; we keep the pixel map total over ℤ for simplicity). -/
structure Canvas where
  size : ℕ
  pix : ℤ → ℤ → Color

/-- Inclusive bounding box [x0, y0, x1, y1] as passed to PIL draw calls. -/
structure Box where
  x0 : ℤ
  y0 : ℤ
  x1 : ℤ
  y1 : ℤ
deriving DecidableEq, Repr

/-- Pixel (x, y) lies in the closed ellipse inscribed in box b.  Clearing
denominators, the condition on the pixel centre is
((2x - x0 - x1) / (x1 - x0))^2 + ((2y - y0 - y1) / (y1 - y0))^2 ≤ 1,
together with membership in the box (which also handles the degenerate
boxes with x0 = x1 or y0 = y1: PIL paints the single row/column/point). -/
def inEll (b : Box) (x y : ℤ) : Prop :=
  b.x0 ≤ x ∧ x ≤ b.x1 ∧ b.y0 ≤ y ∧ y ≤ b.y1 ∧
    (2 * x - b.x0 - b.x1) * (2 * x - b.x0 - b.x1) * ((b.y1 - b.y0) * (b.y1 - b.y0)) +
      (2 * y - b.y0 - b.y1) * (2 * y - b.y0 - b.y1) * ((b.x1 - b.x0) * (b.x1 - b.x0)) ≤
      ((b.x1 - b.x0) * (b.x1 - b.x0)) * ((b.y1 - b.y0) * (b.y1 - b.y0))

instance inEll.dec (b : Box) (x y : ℤ) : Decidable (inEll b x y) := by
  unfold inEll; infer_instance

/-- Box shrunk inward by w on each side (inner boundary of a stroked
outline of width w). -/
def shrink (b : Box) (w : ℤ) : Box :=
  ⟨b.x0 + w, b.y0 + w, b.x1 - w, b.y1 - w⟩

/-- Outline ring of width w of the ellipse in box b: inside the outer
ellipse but not inside the ellipse shrunk by w.  ImageDraw draws no
outline at all when the width is 0, hence the 1 ≤ w conjunct. -/
def inRing (b : Box) (w : ℤ) (x y : ℤ) : Prop :=
  1 ≤ w ∧ inEll b x y ∧ ¬ inEll (shrink b w) x y

instance inRing.dec (b : Box) (w x y : ℤ) : Decidable (inRing b w x y) := by
  unfold inRing; infer_instance

/-- Arc stroke from angle 0 to 180 (PIL angles run clockwise from 3
o'clock in screen coordinates, so this is the bottom half): the ring of
width max w 1 (PIL strokes arcs one pixel wide even at width 0)
intersected with the lower half plane.  The program only draws this one
angle range. -/
def inArc (b : Box) (w : ℤ) (x y : ℤ) : Prop :=
  inEll b x y ∧ ¬ inEll (shrink b (max w 1)) x y ∧ b.y0 + b.y1 ≤ 2 * y

instance inArc.dec (b : Box) (w x y : ℤ) : Decidable (inArc b w x y) := by
  unfold inArc; infer_instance

/-- Horizontal line segment from (x0, y0) to (x1, y0) stroked with width
w: a band of pixels around the segment; width ≤ 1 paints the one-pixel
Bresenham line (PIL draws a one-pixel line for width 0 and 1 alike).  The
program draws only horizontal lines. -/
def inHLine (x0 y0 x1 w x y : ℤ) : Prop :=
  min x0 x1 ≤ x ∧ x ≤ max x0 x1 ∧
    -(max w 1) ≤ 2 * (y - y0) ∧ 2 * (y - y0) ≤ max w 1

instance inHLine.dec (x0 y0 x1 w x y : ℤ) : Decidable (inHLine x0 y0 x1 w x y) := by
  unfold inHLine; infer_instance

/-- One PIL drawing primitive as invoked by create_lion_icon. -/
inductive DrawOp where
  | ellipse (b : Box) (fill : Color) (outline : Option (Color × ℤ))
  | arc (b : Box) (startAngle endAngle : ℤ) (fill : Color) (width : ℤ)
  | line (x0 y0 x1 y1 : ℤ) (fill : Color) (width : ℤ)
deriving DecidableEq, Repr

/-- The set of pixels an op touches (fill or stroke). -/
def covers : DrawOp → ℤ → ℤ → Prop
  | .ellipse b _ none, x, y => inEll b x y
  | .ellipse b _ (some (_, w)), x, y => inRing b w x y ∨ inEll b x y
  | .arc b _ _ _ w, x, y => inArc b w x y
  | .line x0 y0 x1 y1 _ w, x, y => y1 = y0 ∧ inHLine x0 y0 x1 w x y

instance covers.dec (op : DrawOp) (x y : ℤ) : Decidable (covers op x y) := by
  cases op with
  | ellipse b f o => cases o with
    | none => exact inEll.dec ..
    | some p => cases p; unfold covers; infer_instance
  | arc b s e f w => exact inArc.dec ..
  | line x0 y0 x1 y1 f w => unfold covers; infer_instance

/-- Execute one drawing primitive on the canvas.  PIL draws an ellipse
fill first and then strokes the outline over it, so the outline ring wins
where they overlap. -/
def paint (c : Canvas) (op : DrawOp) : Canvas :=
  match op with
  | .ellipse b fill none =>
      ⟨c.size, fun x y => if inEll b x y then fill else c.pix x y⟩
  | .ellipse b fill (some (oc, w)) =>
      ⟨c.size, fun x y =>
        if inRing b w x y then oc
        else if inEll b x y then fill
        else c.pix x y⟩
  | .arc b _ _ col w =>
      ⟨c.size, fun x y => if inArc b w x y then col else c.pix x y⟩
  | .line x0 y0 x1 y1 col w =>
      ⟨c.size, fun x y =>
        if y1 = y0 ∧ inHLine x0 y0 x1 w x y then col else c.pix x y⟩

/-- PIL rejects a bounding box whose second corner precedes the first
(ValueError "x1 must be greater than or equal to x0", and likewise for
y1); line segments accept any endpoints. -/
def validOp : DrawOp → Prop
  | .ellipse b _ _ => b.x0 ≤ b.x1 ∧ b.y0 ≤ b.y1
  | .arc b _ _ _ _ => b.x0 ≤ b.x1 ∧ b.y0 ≤ b.y1
  | .line _ _ _ _ _ _ => True

instance validOp.dec (op : DrawOp) : Decidable (validOp op) := by
  cases op <;> unfold validOp <;> infer_instance

/-- Run the drawing primitives in order; each call first validates its
coordinates as PIL does and raises (Except.error) on an invalid box. -/
def runOps : Canvas → List DrawOp → Except String Canvas
  | c, [] => .ok c
  | c, op :: rest =>
      if validOp op then runOps (paint c op) rest
      else .error "x1 must be greater than or equal to x0"

/-- Python int() applied to a rational value: truncation toward zero. -/
def pyInt (q : ℚ) : ℤ := if 0 ≤ q then ⌊q⌋ else -⌊-q⌋

/-- scale = size / 512 from the source (exact: Python computes this in
binary floating point, where division by 512 = 2 ^ 9 is exact). -/
def scaleQ (size : ℕ) : ℚ := (size : ℚ) / 512

/-- Light blue background (135, 206, 206, 255). -/
def backgroundColor : Color := ⟨135, 206, 206, 255⟩

/-- Orange mane fill (255, 140, 60, 255). -/
def maneColor : Color := ⟨255, 140, 60, 255⟩

/-- Dark brown (139, 69, 19, 255): outlines, nose, mouth, whiskers. -/
def brownColor : Color := ⟨139, 69, 19, 255⟩

/-- Yellow face fill (255, 220, 100, 255). -/
def faceColor : Color := ⟨255, 220, 100, 255⟩

/-- Inner ear fill (255, 180, 120, 255). -/
def innerEarColor : Color := ⟨255, 180, 120, 255⟩

/-- Eye fill (70, 40, 20, 255). -/
def eyeColor : Color := ⟨70, 40, 20, 255⟩

/-- Eye highlight fill (255, 255, 255, 255). -/
def whiteColor : Color := ⟨255, 255, 255, 255⟩

/-- The ordered drawing primitives issued by create_lion_icon(size),
with the same local quantities as the source: center_x = center_y =
size // 2 and each scaled constant truncated by int() at its use site. -/
def opsOf (size : ℕ) : List DrawOp :=
  let scale : ℚ := scaleQ size
  let center_x : ℤ := (size / 2 : ℕ)
  let center_y : ℤ := (size / 2 : ℕ)
  let mane_radius : ℤ := pyInt (180 * scale)
  let face_radius : ℤ := pyInt (120 * scale)
  let ear_size : ℤ := pyInt (40 * scale)
  let ear_offset_x : ℤ := pyInt (70 * scale)
  let ear_offset_y : ℤ := pyInt (80 * scale)
  let inner_ear_size : ℤ := pyInt (20 * scale)
  let eye_size : ℤ := pyInt (25 * scale)
  let eye_offset_x : ℤ := pyInt (35 * scale)
  let eye_offset_y : ℤ := pyInt (20 * scale)
  let highlight_size : ℤ := pyInt (8 * scale)
  let highlight_offset : ℤ := pyInt (8 * scale)
  let nose_size : ℤ := pyInt (15 * scale)
  let nose_offset_y : ℤ := pyInt (10 * scale)
  let mouth_width : ℤ := pyInt (6 * scale)
  let mouth_offset_y : ℤ := pyInt (35 * scale)
  let whisker_length : ℤ := pyInt (40 * scale)
  let whisker_width : ℤ := pyInt (3 * scale)
  let whisker_offset_y : ℤ := pyInt (10 * scale)
  [DrawOp.ellipse
      ⟨center_x - mane_radius, center_y - mane_radius,
       center_x + mane_radius, center_y + mane_radius⟩
      maneColor (some (brownColor, pyInt (8 * scale))),
   DrawOp.ellipse
      ⟨center_x - face_radius, center_y - face_radius,
       center_x + face_radius, center_y + face_radius⟩
      faceColor (some (brownColor, pyInt (6 * scale))),
   DrawOp.ellipse
      ⟨center_x - ear_offset_x - ear_size, center_y - ear_offset_y - ear_size,
       center_x - ear_offset_x + ear_size, center_y - ear_offset_y + ear_size⟩
      faceColor (some (brownColor, pyInt (4 * scale))),
   DrawOp.ellipse
      ⟨center_x + ear_offset_x - ear_size, center_y - ear_offset_y - ear_size,
       center_x + ear_offset_x + ear_size, center_y - ear_offset_y + ear_size⟩
      faceColor (some (brownColor, pyInt (4 * scale))),
   DrawOp.ellipse
      ⟨center_x - ear_offset_x - inner_ear_size, center_y - ear_offset_y - inner_ear_size,
       center_x - ear_offset_x + inner_ear_size, center_y - ear_offset_y + inner_ear_size⟩
      innerEarColor none,
   DrawOp.ellipse
      ⟨center_x + ear_offset_x - inner_ear_size, center_y - ear_offset_y - inner_ear_size,
       center_x + ear_offset_x + inner_ear_size, center_y - ear_offset_y + inner_ear_size⟩
      innerEarColor none,
   DrawOp.ellipse
      ⟨center_x - eye_offset_x - eye_size, center_y - eye_offset_y - eye_size,
       center_x - eye_offset_x + eye_size, center_y - eye_offset_y + eye_size⟩
      eyeColor none,
   DrawOp.ellipse
      ⟨center_x + eye_offset_x - eye_size, center_y - eye_offset_y - eye_size,
       center_x + eye_offset_x + eye_size, center_y - eye_offset_y + eye_size⟩
      eyeColor none,
   DrawOp.ellipse
      ⟨center_x - eye_offset_x - highlight_offset - highlight_size,
       center_y - eye_offset_y - highlight_offset - highlight_size,
       center_x - eye_offset_x - highlight_offset + highlight_size,
       center_y - eye_offset_y - highlight_offset + highlight_size⟩
      whiteColor none,
   DrawOp.ellipse
      ⟨center_x + eye_offset_x - highlight_offset - highlight_size,
       center_y - eye_offset_y - highlight_offset - highlight_size,
       center_x + eye_offset_x - highlight_offset + highlight_size,
       center_y - eye_offset_y - highlight_offset + highlight_size⟩
      whiteColor none,
   DrawOp.ellipse
      ⟨center_x - nose_size, center_y + nose_offset_y - nose_size,
       center_x + nose_size, center_y + nose_offset_y + nose_size⟩
      brownColor none,
   DrawOp.arc
      ⟨center_x - pyInt (30 * scale), center_y + mouth_offset_y - pyInt (20 * scale),
       center_x + pyInt (30 * scale), center_y + mouth_offset_y + pyInt (20 * scale)⟩
      0 180 brownColor mouth_width]
  ++ [(-10 : ℤ), 0, 10].map (fun (y_offset : ℤ) =>
      let y_pos : ℤ := center_y + whisker_offset_y + pyInt ((y_offset : ℚ) * scale)
      DrawOp.line (center_x - face_radius - pyInt (10 * scale)) y_pos
        (center_x - face_radius - whisker_length) y_pos brownColor whisker_width)
  ++ [(-10 : ℤ), 0, 10].map (fun (y_offset : ℤ) =>
      let y_pos : ℤ := center_y + whisker_offset_y + pyInt ((y_offset : ℚ) * scale)
      DrawOp.line (center_x + face_radius + pyInt (10 * scale)) y_pos
        (center_x + face_radius + whisker_length) y_pos brownColor whisker_width)

/-- create_lion_icon(size): a fresh size x size canvas filled with the
light blue background, then the drawing primitives in source order. -/
def create_lion_icon (size : ℕ) : Except String Canvas :=
  runOps ⟨size, fun _ _ => backgroundColor⟩ (opsOf size)

/-- Path segments of a '/'-separated path, on the character list of the
path string. -/
def splitSegs : List Char → List (List Char)
  | [] => [[]]
  | ch :: rest =>
    match splitSegs rest with
    | [] => [[ch]]
    | seg :: segs => if ch = '/' then [] :: seg :: segs else (ch :: seg) :: segs

/-- Directory part of a path: all segments but the last, rejoined. -/
def dirname (p : String) : String :=
  ⟨List.intercalate ['/'] (splitSegs p.toList).dropLast⟩

/-- The directory p together with all its ancestors, as os.makedirs
creates them ("client", "client/assets", "client/assets/icons"). -/
def ancestorsOf (p : String) : List String :=
  let segs := splitSegs p.toList
  (List.range segs.length).map (fun i => ⟨List.intercalate ['/'] (segs.take (i + 1))⟩)

/-- Contents of one written file.  Serialization is PIL's (an external
collaborator); a file holds the structured data the script passes to
save: the rendered canvas, and for the ICO container also the requested
frame sizes (PIL writes one embedded frame per size, downscaling the
saved image). -/
inductive FileData where
  | png (img : Canvas)
  | ico (img : Canvas) (frameSizes : List (ℕ × ℕ))

/-- Embedded frame dimensions of a written file (the ICO directory; a
standalone PNG has its single canvas). -/
def frameSizes : FileData → List (ℕ × ℕ)
  | .png img => [(img.size, img.size)]
  | .ico _ fs => fs

/-- Lower bound on the serialized byte length, from the mandatory file
headers (PNG: 8-byte signature; ICO: 6-byte header plus one 16-byte
directory entry per frame).  Any PIL-written file is at least this long. -/
def byteLenLB : FileData → ℕ
  | .png _ => 8
  | .ico _ fs => 6 + 16 * fs.length

/-- Filesystem state: existing directories and written files (later
writes to the same path replace earlier ones). -/
structure FSState where
  dirs : List String
  files : List (String × FileData)

/-- The empty working directory the driver is run against. -/
def emptyFS : FSState := ⟨[], []⟩

/-- os.makedirs(p, exist_ok): creates p and any missing ancestors;
raises FileExistsError when p exists and exist_ok is false. -/
def makedirs (fs : FSState) (p : String) (exist_ok : Bool) : Except String FSState :=
  if p ∈ fs.dirs ∧ exist_ok = false then .error "FileExistsError"
  else .ok ⟨fs.dirs ++ (ancestorsOf p).filter (fun d => ! fs.dirs.contains d), fs.files⟩

/-- img.save(path, ...): writes the file, failing (FileNotFoundError)
when the parent directory does not exist. -/
def saveFile (fs : FSState) (p : String) (d : FileData) : Except String FSState :=
  if dirname p ∈ fs.dirs then
    .ok ⟨fs.dirs, fs.files.filter (fun e => ! (e.1 == p)) ++ [(p, d)]⟩
  else .error "FileNotFoundError"

/-- The four (size, path) pairs of the driver loop, in source order. -/
def sizes_and_paths : List (ℕ × String) :=
  [(192, "client/assets/icons/icon-192.png"),
   (512, "client/assets/icons/icon-512.png"),
   (32, "client/favicon-32x32.png"),
   (16, "client/favicon-16x16.png")]

/-- The driver main(), parameterized by the renderer so that dependence
of the outputs on the individual renders can be stated: makedirs with
exist_ok=True, the four PNG saves, then icon_16 and icon_32 rendered
again and favicon.ico saved from icon_32 with sizes [(16,16), (32,32)].
The print calls touch no file and are omitted. -/
def mainGen (render : ℕ → Except String Canvas) (fs0 : FSState) : Except String FSState := do
  let fs1 ← makedirs fs0 "client/assets/icons" true
  let fs2 ← sizes_and_paths.foldlM (fun fs sp => do
      let icon ← render sp.1
      saveFile fs sp.2 (.png icon)) fs1
  let _icon_16 ← render 16
  let icon_32 ← render 32
  saveFile fs2 "client/favicon.ico" (.ico icon_32 [(16, 16), (32, 32)])

/-- The driver main() of the source, running the real renderer. -/
def mainRun (fs : FSState) : Except String FSState :=
  mainGen create_lion_icon fs

/-- File stored at path p in the outcome of a driver run (none when the
run failed or never wrote p). -/
def getFile (r : Except String FSState) (p : String) : Option FileData :=
  match r with
  | .ok fs => fs.files.lookup p
  | .error _ => none

/-- create_lion_icon threaded through an explicit external world (the
filesystem).  The source routine only allocates an in-memory image and
draws on it with PIL; it makes no filesystem or other OS call, so its
world-threaded semantics returns the world unchanged. -/
def renderFS (size : ℕ) (fs : FSState) : Except String Canvas × FSState :=
  (create_lion_icon size, fs)

/-- Truncation toward zero is an odd function. -/
theorem pyInt_neg (q : ℚ) : pyInt (-q) = -pyInt q := by
  rcases lt_trichotomy q 0 with h | rfl | h
  · have h1 : (0 : ℚ) ≤ -q := by linarith
    have h2 : ¬ (0 : ℚ) ≤ q := not_le.mpr h
    simp only [pyInt, if_pos h1, if_neg h2, neg_neg]
  · simp [pyInt]
  · have h1 : ¬ (0 : ℚ) ≤ -q := not_le.mpr (by linarith)
    have h2 : (0 : ℚ) ≤ q := h.le
    simp only [pyInt, if_pos h2, if_neg h1, neg_neg]

/-- On a nonnegative scaled constant, Python int() agrees with natural
division: int(a * (s / 512)) = a * s / 512 in ℕ. -/
theorem pyInt_cast_mul (a s : ℕ) :
    pyInt ((a : ℚ) * scaleQ s) = ((a * s / 512 : ℕ) : ℤ) := by
  have h0 : (0 : ℚ) ≤ (a : ℚ) * scaleQ s := by unfold scaleQ; positivity
  have h1 : (a : ℚ) * scaleQ s = ((a * s : ℕ) : ℚ) / ((512 : ℕ) : ℚ) := by
    unfold scaleQ; push_cast; ring
  rw [pyInt, if_pos h0, h1, ← Int.natCast_floor_eq_floor (by positivity),
    Nat.floor_div_eq_div]

theorem pyInt180 (s : ℕ) : pyInt (180 * scaleQ s) = ((180 * s / 512 : ℕ) : ℤ) := by
  rw [show (180 : ℚ) = ((180 : ℕ) : ℚ) by norm_num]; exact pyInt_cast_mul 180 s

theorem pyInt120 (s : ℕ) : pyInt (120 * scaleQ s) = ((120 * s / 512 : ℕ) : ℤ) := by
  rw [show (120 : ℚ) = ((120 : ℕ) : ℚ) by norm_num]; exact pyInt_cast_mul 120 s

theorem pyInt80 (s : ℕ) : pyInt (80 * scaleQ s) = ((80 * s / 512 : ℕ) : ℤ) := by
  rw [show (80 : ℚ) = ((80 : ℕ) : ℚ) by norm_num]; exact pyInt_cast_mul 80 s

theorem pyInt70 (s : ℕ) : pyInt (70 * scaleQ s) = ((70 * s / 512 : ℕ) : ℤ) := by
  rw [show (70 : ℚ) = ((70 : ℕ) : ℚ) by norm_num]; exact pyInt_cast_mul 70 s

theorem pyInt40 (s : ℕ) : pyInt (40 * scaleQ s) = ((40 * s / 512 : ℕ) : ℤ) := by
  rw [show (40 : ℚ) = ((40 : ℕ) : ℚ) by norm_num]; exact pyInt_cast_mul 40 s

theorem pyInt35 (s : ℕ) : pyInt (35 * scaleQ s) = ((35 * s / 512 : ℕ) : ℤ) := by
  rw [show (35 : ℚ) = ((35 : ℕ) : ℚ) by norm_num]; exact pyInt_cast_mul 35 s

theorem pyInt30 (s : ℕ) : pyInt (30 * scaleQ s) = ((30 * s / 512 : ℕ) : ℤ) := by
  rw [show (30 : ℚ) = ((30 : ℕ) : ℚ) by norm_num]; exact pyInt_cast_mul 30 s

theorem pyInt25 (s : ℕ) : pyInt (25 * scaleQ s) = ((25 * s / 512 : ℕ) : ℤ) := by
  rw [show (25 : ℚ) = ((25 : ℕ) : ℚ) by norm_num]; exact pyInt_cast_mul 25 s

theorem pyInt20 (s : ℕ) : pyInt (20 * scaleQ s) = ((20 * s / 512 : ℕ) : ℤ) := by
  rw [show (20 : ℚ) = ((20 : ℕ) : ℚ) by norm_num]; exact pyInt_cast_mul 20 s

theorem pyInt15 (s : ℕ) : pyInt (15 * scaleQ s) = ((15 * s / 512 : ℕ) : ℤ) := by
  rw [show (15 : ℚ) = ((15 : ℕ) : ℚ) by norm_num]; exact pyInt_cast_mul 15 s

theorem pyInt10 (s : ℕ) : pyInt (10 * scaleQ s) = ((10 * s / 512 : ℕ) : ℤ) := by
  rw [show (10 : ℚ) = ((10 : ℕ) : ℚ) by norm_num]; exact pyInt_cast_mul 10 s

theorem pyInt8 (s : ℕ) : pyInt (8 * scaleQ s) = ((8 * s / 512 : ℕ) : ℤ) := by
  rw [show (8 : ℚ) = ((8 : ℕ) : ℚ) by norm_num]; exact pyInt_cast_mul 8 s

theorem pyInt6 (s : ℕ) : pyInt (6 * scaleQ s) = ((6 * s / 512 : ℕ) : ℤ) := by
  rw [show (6 : ℚ) = ((6 : ℕ) : ℚ) by norm_num]; exact pyInt_cast_mul 6 s

theorem pyInt4 (s : ℕ) : pyInt (4 * scaleQ s) = ((4 * s / 512 : ℕ) : ℤ) := by
  rw [show (4 : ℚ) = ((4 : ℕ) : ℚ) by norm_num]; exact pyInt_cast_mul 4 s

theorem pyInt3 (s : ℕ) : pyInt (3 * scaleQ s) = ((3 * s / 512 : ℕ) : ℤ) := by
  rw [show (3 : ℚ) = ((3 : ℕ) : ℚ) by norm_num]; exact pyInt_cast_mul 3 s

theorem pyIntNeg10 (s : ℕ) :
    pyInt (((-10 : ℤ) : ℚ) * scaleQ s) = -((10 * s / 512 : ℕ) : ℤ) := by
  have h : (((-10 : ℤ) : ℚ)) * scaleQ s = -(((10 : ℕ) : ℚ) * scaleQ s) := by
    push_cast; ring
  rw [h, pyInt_neg, pyInt_cast_mul]

theorem pyIntZeroOff (s : ℕ) : pyInt (((0 : ℤ) : ℚ) * scaleQ s) = 0 := by
  simp [pyInt]

theorem pyIntPos10 (s : ℕ) :
    pyInt (((10 : ℤ) : ℚ) * scaleQ s) = ((10 * s / 512 : ℕ) : ℤ) := by
  rw [show (((10 : ℤ) : ℚ)) = ((10 : ℕ) : ℚ) by norm_num]; exact pyInt_cast_mul 10 s

/-- All colors an op can write are fully opaque. -/
def opOpaque : DrawOp → Prop
  | .ellipse _ fill none => fill.a = 255
  | .ellipse _ fill (some (oc, _)) => fill.a = 255 ∧ oc.a = 255
  | .arc _ _ _ col _ => col.a = 255
  | .line _ _ _ _ col _ => col.a = 255

theorem paint_size (c : Canvas) (op : DrawOp) : (paint c op).size = c.size := by
  cases op with
  | ellipse b f o => cases o with
    | none => rfl
    | some p => cases p; rfl
  | arc => rfl
  | line => rfl

theorem paint_pix_of_not_covers (c : Canvas) (op : DrawOp) (x y : ℤ)
    (h : ¬ covers op x y) : (paint c op).pix x y = c.pix x y := by
  cases op with
  | ellipse b f o =>
    cases o with
    | none => simp only [paint, covers] at h ⊢; rw [if_neg h]
    | some p =>
      cases p with
      | mk oc w =>
        simp only [paint, covers] at h ⊢
        push_neg at h
        rw [if_neg h.1, if_neg h.2]
  | arc b sa ea col w => simp only [paint, covers] at h ⊢; rw [if_neg h]
  | line x0 y0 x1 y1 col w => simp only [paint, covers] at h ⊢; rw [if_neg h]

theorem paint_alpha (c : Canvas) (op : DrawOp) (hop : opOpaque op)
    (hc : ∀ x y : ℤ, (c.pix x y).a = 255) :
    ∀ x y : ℤ, ((paint c op).pix x y).a = 255 := by
  intro x y
  cases op with
  | ellipse b f o =>
    cases o with
    | none =>
      simp only [paint]
      split
      · exact hop
      · exact hc x y
    | some p =>
      cases p with
      | mk oc w =>
        simp only [paint]
        split
        · exact hop.2
        · split
          · exact hop.1
          · exact hc x y
  | arc b sa ea col w =>
    simp only [paint]
    split
    · exact hop
    · exact hc x y
  | line x0 y0 x1 y1 col w =>
    simp only [paint]
    split
    · exact hop
    · exact hc x y

theorem runOps_ok_of_valid (ops : List DrawOp) :
    ∀ c : Canvas, (∀ op ∈ ops, validOp op) → ∃ d, runOps c ops = .ok d := by
  induction ops with
  | nil => exact fun c _ => ⟨c, rfl⟩
  | cons op rest ih =>
    intro c h
    have hv : validOp op := h op (List.mem_cons_self op rest)
    have ⟨d, hd⟩ := ih (paint c op) (fun o ho => h o (List.mem_cons_of_mem op ho))
    exact ⟨d, by rw [runOps, if_pos hv]; exact hd⟩

theorem runOps_size (ops : List DrawOp) :
    ∀ c d : Canvas, runOps c ops = .ok d → d.size = c.size := by
  induction ops with
  | nil => intro c d h; cases h; rfl
  | cons op rest ih =>
    intro c d h
    rw [runOps] at h
    by_cases hv : validOp op
    · rw [if_pos hv] at h
      rw [ih (paint c op) d h, paint_size]
    · rw [if_neg hv] at h; cases h

theorem runOps_alpha (ops : List DrawOp) :
    ∀ c d : Canvas, (∀ op ∈ ops, opOpaque op) →
      (∀ x y : ℤ, (c.pix x y).a = 255) → runOps c ops = .ok d →
      ∀ x y : ℤ, (d.pix x y).a = 255 := by
  induction ops with
  | nil => intro c d _ hc h; cases h; exact hc
  | cons op rest ih =>
    intro c d hops hc h
    rw [runOps] at h
    by_cases hv : validOp op
    · rw [if_pos hv] at h
      exact ih (paint c op) d (fun o ho => hops o (List.mem_cons_of_mem op ho))
        (paint_alpha c op (hops op (List.mem_cons_self op rest)) hc) h
    · rw [if_neg hv] at h; cases h

theorem runOps_pix_of_uncovered (ops : List DrawOp) :
    ∀ c d : Canvas, ∀ x y : ℤ, (∀ op ∈ ops, ¬ covers op x y) →
      runOps c ops = .ok d → d.pix x y = c.pix x y := by
  induction ops with
  | nil => intro c d x y _ h; cases h; rfl
  | cons op rest ih =>
    intro c d x y hops h
    rw [runOps] at h
    by_cases hv : validOp op
    · rw [if_pos hv] at h
      rw [ih (paint c op) d x y (fun o ho => hops o (List.mem_cons_of_mem op ho)) h,
        paint_pix_of_not_covers c op x y (hops op (List.mem_cons_self op rest))]
    · rw [if_neg hv] at h; cases h

theorem inEll_bounds {b : Box} {x y : ℤ} (h : inEll b x y) :
    b.x0 ≤ x ∧ x ≤ b.x1 ∧ b.y0 ≤ y ∧ y ≤ b.y1 :=
  ⟨h.1, h.2.1, h.2.2.1, h.2.2.2.1⟩

theorem covers_ellipse_bounds {b : Box} {f : Color} {o : Option (Color × ℤ)} {x y : ℤ}
    (h : covers (.ellipse b f o) x y) :
    b.x0 ≤ x ∧ x ≤ b.x1 ∧ b.y0 ≤ y ∧ y ≤ b.y1 := by
  cases o with
  | none => exact inEll_bounds h
  | some p =>
    cases p with
    | mk oc w =>
      rcases h with h | h
      · exact inEll_bounds h.2.1
      · exact inEll_bounds h

theorem covers_arc_bounds {b : Box} {sa ea : ℤ} {col : Color} {w x y : ℤ}
    (h : covers (.arc b sa ea col w) x y) :
    b.x0 ≤ x ∧ x ≤ b.x1 ∧ b.y0 ≤ y ∧ y ≤ b.y1 :=
  inEll_bounds h.1

theorem covers_line_bounds {x0 y0 x1 y1 : ℤ} {col : Color} {w x y : ℤ}
    (h : covers (.line x0 y0 x1 y1 col w) x y) :
    min x0 x1 ≤ x ∧ x ≤ max x0 x1 ∧
      -(max w 1) ≤ 2 * (y - y0) ∧ 2 * (y - y0) ≤ max w 1 :=
  ⟨h.2.1, h.2.2.1, h.2.2.2.1, h.2.2.2.2⟩
theorem covers_ellipseF {x0 y0 x1 y1 : ℤ} {f : Color} {o : Option (Color × ℤ)} {x y : ℤ}
    (h : covers (.ellipse ⟨x0, y0, x1, y1⟩ f o) x y) :
    x0 ≤ x ∧ x ≤ x1 ∧ y0 ≤ y ∧ y ≤ y1 :=
  covers_ellipse_bounds h

theorem covers_arcF {x0 y0 x1 y1 : ℤ} {sa ea : ℤ} {col : Color} {w x y : ℤ}
    (h : covers (.arc ⟨x0, y0, x1, y1⟩ sa ea col w) x y) :
    x0 ≤ x ∧ x ≤ x1 ∧ y0 ≤ y ∧ y ≤ y1 :=
  covers_arc_bounds h

theorem corner_untouched (s : ℕ) (hs : 7 ≤ s) :
    ∀ op ∈ opsOf s, ∀ x y : ℤ,
      (x = 0 ∨ x = (s : ℤ) - 1) → (y = 0 ∨ y = (s : ℤ) - 1) → ¬ covers op x y := by
  intro op hop x y hx hy hcov
  simp only [opsOf, List.map_cons, List.map_nil, List.cons_append, List.nil_append,
    List.mem_cons, List.not_mem_nil, or_false] at hop
  rcases hop with rfl | rfl | rfl | rfl | rfl | rfl | rfl | rfl | rfl | rfl | rfl | rfl |
    rfl | rfl | rfl | rfl | rfl | rfl
  case _ => -- mane
    have hb := covers_ellipseF hcov
    simp only [pyInt180] at hb
    omega
  case _ => -- face
    have hb := covers_ellipseF hcov
    simp only [pyInt120] at hb
    omega
  case _ =>
    have hb := covers_ellipseF hcov
    simp only [pyInt70, pyInt80, pyInt40] at hb
    omega
  case _ =>
    have hb := covers_ellipseF hcov
    simp only [pyInt70, pyInt80, pyInt40] at hb
    omega
  case _ =>
    have hb := covers_ellipseF hcov
    simp only [pyInt70, pyInt80, pyInt20] at hb
    omega
  case _ =>
    have hb := covers_ellipseF hcov
    simp only [pyInt70, pyInt80, pyInt20] at hb
    omega
  case _ =>
    have hb := covers_ellipseF hcov
    simp only [pyInt35, pyInt20, pyInt25] at hb
    omega
  case _ =>
    have hb := covers_ellipseF hcov
    simp only [pyInt35, pyInt20, pyInt25] at hb
    omega
  case _ =>
    have hb := covers_ellipseF hcov
    simp only [pyInt35, pyInt20, pyInt8] at hb
    omega
  case _ =>
    have hb := covers_ellipseF hcov
    simp only [pyInt35, pyInt20, pyInt8] at hb
    omega
  case _ => -- nose
    have hb := covers_ellipseF hcov
    simp only [pyInt15, pyInt10] at hb
    omega
  case _ => -- mouth
    have hb := covers_arcF hcov
    simp only [pyInt30, pyInt35, pyInt20] at hb
    omega
  all_goals {
    have hb := covers_line_bounds hcov
    simp only [pyInt120, pyInt40, pyInt10, pyInt3, pyIntNeg10, pyIntZeroOff, pyIntPos10] at hb
    omega
  }

theorem opsOf_valid (s : ℕ) : ∀ op ∈ opsOf s, validOp op := by
  intro op hop
  simp only [opsOf, List.map_cons, List.map_nil, List.cons_append, List.nil_append,
    List.mem_cons, List.not_mem_nil, or_false] at hop
  rcases hop with rfl | rfl | rfl | rfl | rfl | rfl | rfl | rfl | rfl | rfl | rfl | rfl |
    rfl | rfl | rfl | rfl | rfl | rfl <;>
    simp only [validOp, pyInt180, pyInt120, pyInt80, pyInt70, pyInt40, pyInt35, pyInt30,
      pyInt25, pyInt20, pyInt15, pyInt10, pyInt8, pyInt6, pyInt4, pyInt3, pyIntNeg10,
      pyIntZeroOff, pyIntPos10] <;>
    first
      | trivial
      | omega

/-- create_lion_icon never raises: every bounding box it passes to PIL is
well ordered, at every size. -/
theorem render_ok (s : ℕ) : ∃ c, create_lion_icon s = .ok c :=
  runOps_ok_of_valid (opsOf s) _ (opsOf_valid s)

theorem opsOf_colorsFull (s : ℕ) : ∀ op ∈ opsOf s, opOpaque op := by
  intro op hop
  simp only [opsOf, List.map_cons, List.map_nil, List.cons_append, List.nil_append,
    List.mem_cons, List.not_mem_nil, or_false] at hop
  rcases hop with rfl | rfl | rfl | rfl | rfl | rfl | rfl | rfl | rfl | rfl | rfl | rfl |
    rfl | rfl | rfl | rfl | rfl | rfl <;>
    first
      | exact ⟨rfl, rfl⟩
      | exact rfl
theorem opsOf1_eq : opsOf 1 =
    [DrawOp.ellipse ⟨0, 0, 0, 0⟩ maneColor (some (brownColor, 0)),
     DrawOp.ellipse ⟨0, 0, 0, 0⟩ faceColor (some (brownColor, 0)),
     DrawOp.ellipse ⟨0, 0, 0, 0⟩ faceColor (some (brownColor, 0)),
     DrawOp.ellipse ⟨0, 0, 0, 0⟩ faceColor (some (brownColor, 0)),
     DrawOp.ellipse ⟨0, 0, 0, 0⟩ innerEarColor none,
     DrawOp.ellipse ⟨0, 0, 0, 0⟩ innerEarColor none,
     DrawOp.ellipse ⟨0, 0, 0, 0⟩ eyeColor none,
     DrawOp.ellipse ⟨0, 0, 0, 0⟩ eyeColor none,
     DrawOp.ellipse ⟨0, 0, 0, 0⟩ whiteColor none,
     DrawOp.ellipse ⟨0, 0, 0, 0⟩ whiteColor none,
     DrawOp.ellipse ⟨0, 0, 0, 0⟩ brownColor none,
     DrawOp.arc ⟨0, 0, 0, 0⟩ 0 180 brownColor 0,
     DrawOp.line 0 0 0 0 brownColor 0,
     DrawOp.line 0 0 0 0 brownColor 0,
     DrawOp.line 0 0 0 0 brownColor 0,
     DrawOp.line 0 0 0 0 brownColor 0,
     DrawOp.line 0 0 0 0 brownColor 0,
     DrawOp.line 0 0 0 0 brownColor 0] := by
  simp only [opsOf, List.map_cons, List.map_nil, pyInt180, pyInt120, pyInt80, pyInt70,
    pyInt40, pyInt35, pyInt30, pyInt25, pyInt20, pyInt15, pyInt10, pyInt8, pyInt6,
    pyInt4, pyInt3, pyIntNeg10, pyIntZeroOff, pyIntPos10]
  norm_num

theorem opsOf2_eq : opsOf 2 =
    [DrawOp.ellipse ⟨1, 1, 1, 1⟩ maneColor (some (brownColor, 0)),
     DrawOp.ellipse ⟨1, 1, 1, 1⟩ faceColor (some (brownColor, 0)),
     DrawOp.ellipse ⟨1, 1, 1, 1⟩ faceColor (some (brownColor, 0)),
     DrawOp.ellipse ⟨1, 1, 1, 1⟩ faceColor (some (brownColor, 0)),
     DrawOp.ellipse ⟨1, 1, 1, 1⟩ innerEarColor none,
     DrawOp.ellipse ⟨1, 1, 1, 1⟩ innerEarColor none,
     DrawOp.ellipse ⟨1, 1, 1, 1⟩ eyeColor none,
     DrawOp.ellipse ⟨1, 1, 1, 1⟩ eyeColor none,
     DrawOp.ellipse ⟨1, 1, 1, 1⟩ whiteColor none,
     DrawOp.ellipse ⟨1, 1, 1, 1⟩ whiteColor none,
     DrawOp.ellipse ⟨1, 1, 1, 1⟩ brownColor none,
     DrawOp.arc ⟨1, 1, 1, 1⟩ 0 180 brownColor 0,
     DrawOp.line 1 1 1 1 brownColor 0,
     DrawOp.line 1 1 1 1 brownColor 0,
     DrawOp.line 1 1 1 1 brownColor 0,
     DrawOp.line 1 1 1 1 brownColor 0,
     DrawOp.line 1 1 1 1 brownColor 0,
     DrawOp.line 1 1 1 1 brownColor 0] := by
  simp only [opsOf, List.map_cons, List.map_nil, pyInt180, pyInt120, pyInt80, pyInt70,
    pyInt40, pyInt35, pyInt30, pyInt25, pyInt20, pyInt15, pyInt10, pyInt8, pyInt6,
    pyInt4, pyInt3, pyIntNeg10, pyIntZeroOff, pyIntPos10]
  norm_num

theorem opsOf3_eq : opsOf 3 =
    [DrawOp.ellipse ⟨0, 0, 2, 2⟩ maneColor (some (brownColor, 0)),
     DrawOp.ellipse ⟨1, 1, 1, 1⟩ faceColor (some (brownColor, 0)),
     DrawOp.ellipse ⟨1, 1, 1, 1⟩ faceColor (some (brownColor, 0)),
     DrawOp.ellipse ⟨1, 1, 1, 1⟩ faceColor (some (brownColor, 0)),
     DrawOp.ellipse ⟨1, 1, 1, 1⟩ innerEarColor none,
     DrawOp.ellipse ⟨1, 1, 1, 1⟩ innerEarColor none,
     DrawOp.ellipse ⟨1, 1, 1, 1⟩ eyeColor none,
     DrawOp.ellipse ⟨1, 1, 1, 1⟩ eyeColor none,
     DrawOp.ellipse ⟨1, 1, 1, 1⟩ whiteColor none,
     DrawOp.ellipse ⟨1, 1, 1, 1⟩ whiteColor none,
     DrawOp.ellipse ⟨1, 1, 1, 1⟩ brownColor none,
     DrawOp.arc ⟨1, 1, 1, 1⟩ 0 180 brownColor 0,
     DrawOp.line 1 1 1 1 brownColor 0,
     DrawOp.line 1 1 1 1 brownColor 0,
     DrawOp.line 1 1 1 1 brownColor 0,
     DrawOp.line 1 1 1 1 brownColor 0,
     DrawOp.line 1 1 1 1 brownColor 0,
     DrawOp.line 1 1 1 1 brownColor 0] := by
  simp only [opsOf, List.map_cons, List.map_nil, pyInt180, pyInt120, pyInt80, pyInt70,
    pyInt40, pyInt35, pyInt30, pyInt25, pyInt20, pyInt15, pyInt10, pyInt8, pyInt6,
    pyInt4, pyInt3, pyIntNeg10, pyIntZeroOff, pyIntPos10]
  norm_num

theorem opsOf4_eq : opsOf 4 =
    [DrawOp.ellipse ⟨1, 1, 3, 3⟩ maneColor (some (brownColor, 0)),
     DrawOp.ellipse ⟨2, 2, 2, 2⟩ faceColor (some (brownColor, 0)),
     DrawOp.ellipse ⟨2, 2, 2, 2⟩ faceColor (some (brownColor, 0)),
     DrawOp.ellipse ⟨2, 2, 2, 2⟩ faceColor (some (brownColor, 0)),
     DrawOp.ellipse ⟨2, 2, 2, 2⟩ innerEarColor none,
     DrawOp.ellipse ⟨2, 2, 2, 2⟩ innerEarColor none,
     DrawOp.ellipse ⟨2, 2, 2, 2⟩ eyeColor none,
     DrawOp.ellipse ⟨2, 2, 2, 2⟩ eyeColor none,
     DrawOp.ellipse ⟨2, 2, 2, 2⟩ whiteColor none,
     DrawOp.ellipse ⟨2, 2, 2, 2⟩ whiteColor none,
     DrawOp.ellipse ⟨2, 2, 2, 2⟩ brownColor none,
     DrawOp.arc ⟨2, 2, 2, 2⟩ 0 180 brownColor 0,
     DrawOp.line 2 2 2 2 brownColor 0,
     DrawOp.line 2 2 2 2 brownColor 0,
     DrawOp.line 2 2 2 2 brownColor 0,
     DrawOp.line 2 2 2 2 brownColor 0,
     DrawOp.line 2 2 2 2 brownColor 0,
     DrawOp.line 2 2 2 2 brownColor 0] := by
  simp only [opsOf, List.map_cons, List.map_nil, pyInt180, pyInt120, pyInt80, pyInt70,
    pyInt40, pyInt35, pyInt30, pyInt25, pyInt20, pyInt15, pyInt10, pyInt8, pyInt6,
    pyInt4, pyInt3, pyIntNeg10, pyIntZeroOff, pyIntPos10]
  norm_num

theorem opsOf5_eq : opsOf 5 =
    [DrawOp.ellipse ⟨1, 1, 3, 3⟩ maneColor (some (brownColor, 0)),
     DrawOp.ellipse ⟨1, 1, 3, 3⟩ faceColor (some (brownColor, 0)),
     DrawOp.ellipse ⟨2, 2, 2, 2⟩ faceColor (some (brownColor, 0)),
     DrawOp.ellipse ⟨2, 2, 2, 2⟩ faceColor (some (brownColor, 0)),
     DrawOp.ellipse ⟨2, 2, 2, 2⟩ innerEarColor none,
     DrawOp.ellipse ⟨2, 2, 2, 2⟩ innerEarColor none,
     DrawOp.ellipse ⟨2, 2, 2, 2⟩ eyeColor none,
     DrawOp.ellipse ⟨2, 2, 2, 2⟩ eyeColor none,
     DrawOp.ellipse ⟨2, 2, 2, 2⟩ whiteColor none,
     DrawOp.ellipse ⟨2, 2, 2, 2⟩ whiteColor none,
     DrawOp.ellipse ⟨2, 2, 2, 2⟩ brownColor none,
     DrawOp.arc ⟨2, 2, 2, 2⟩ 0 180 brownColor 0,
     DrawOp.line 1 2 1 2 brownColor 0,
     DrawOp.line 1 2 1 2 brownColor 0,
     DrawOp.line 1 2 1 2 brownColor 0,
     DrawOp.line 3 2 3 2 brownColor 0,
     DrawOp.line 3 2 3 2 brownColor 0,
     DrawOp.line 3 2 3 2 brownColor 0] := by
  simp only [opsOf, List.map_cons, List.map_nil, pyInt180, pyInt120, pyInt80, pyInt70,
    pyInt40, pyInt35, pyInt30, pyInt25, pyInt20, pyInt15, pyInt10, pyInt8, pyInt6,
    pyInt4, pyInt3, pyIntNeg10, pyIntZeroOff, pyIntPos10]
  norm_num

theorem opsOf6_eq : opsOf 6 =
    [DrawOp.ellipse ⟨1, 1, 5, 5⟩ maneColor (some (brownColor, 0)),
     DrawOp.ellipse ⟨2, 2, 4, 4⟩ faceColor (some (brownColor, 0)),
     DrawOp.ellipse ⟨3, 3, 3, 3⟩ faceColor (some (brownColor, 0)),
     DrawOp.ellipse ⟨3, 3, 3, 3⟩ faceColor (some (brownColor, 0)),
     DrawOp.ellipse ⟨3, 3, 3, 3⟩ innerEarColor none,
     DrawOp.ellipse ⟨3, 3, 3, 3⟩ innerEarColor none,
     DrawOp.ellipse ⟨3, 3, 3, 3⟩ eyeColor none,
     DrawOp.ellipse ⟨3, 3, 3, 3⟩ eyeColor none,
     DrawOp.ellipse ⟨3, 3, 3, 3⟩ whiteColor none,
     DrawOp.ellipse ⟨3, 3, 3, 3⟩ whiteColor none,
     DrawOp.ellipse ⟨3, 3, 3, 3⟩ brownColor none,
     DrawOp.arc ⟨3, 3, 3, 3⟩ 0 180 brownColor 0,
     DrawOp.line 2 3 2 3 brownColor 0,
     DrawOp.line 2 3 2 3 brownColor 0,
     DrawOp.line 2 3 2 3 brownColor 0,
     DrawOp.line 4 3 4 3 brownColor 0,
     DrawOp.line 4 3 4 3 brownColor 0,
     DrawOp.line 4 3 4 3 brownColor 0] := by
  simp only [opsOf, List.map_cons, List.map_nil, pyInt180, pyInt120, pyInt80, pyInt70,
    pyInt40, pyInt35, pyInt30, pyInt25, pyInt20, pyInt15, pyInt10, pyInt8, pyInt6,
    pyInt4, pyInt3, pyIntNeg10, pyIntZeroOff, pyIntPos10]
  norm_num

theorem opsOf16_eq : opsOf 16 =
    [DrawOp.ellipse ⟨3, 3, 13, 13⟩ maneColor (some (brownColor, 0)),
     DrawOp.ellipse ⟨5, 5, 11, 11⟩ faceColor (some (brownColor, 0)),
     DrawOp.ellipse ⟨5, 5, 7, 7⟩ faceColor (some (brownColor, 0)),
     DrawOp.ellipse ⟨9, 5, 11, 7⟩ faceColor (some (brownColor, 0)),
     DrawOp.ellipse ⟨6, 6, 6, 6⟩ innerEarColor none,
     DrawOp.ellipse ⟨10, 6, 10, 6⟩ innerEarColor none,
     DrawOp.ellipse ⟨7, 8, 7, 8⟩ eyeColor none,
     DrawOp.ellipse ⟨9, 8, 9, 8⟩ eyeColor none,
     DrawOp.ellipse ⟨7, 8, 7, 8⟩ whiteColor none,
     DrawOp.ellipse ⟨9, 8, 9, 8⟩ whiteColor none,
     DrawOp.ellipse ⟨8, 8, 8, 8⟩ brownColor none,
     DrawOp.arc ⟨8, 9, 8, 9⟩ 0 180 brownColor 0,
     DrawOp.line 5 8 4 8 brownColor 0,
     DrawOp.line 5 8 4 8 brownColor 0,
     DrawOp.line 5 8 4 8 brownColor 0,
     DrawOp.line 11 8 12 8 brownColor 0,
     DrawOp.line 11 8 12 8 brownColor 0,
     DrawOp.line 11 8 12 8 brownColor 0] := by
  simp only [opsOf, List.map_cons, List.map_nil, pyInt180, pyInt120, pyInt80, pyInt70,
    pyInt40, pyInt35, pyInt30, pyInt25, pyInt20, pyInt15, pyInt10, pyInt8, pyInt6,
    pyInt4, pyInt3, pyIntNeg10, pyIntZeroOff, pyIntPos10]
  norm_num

theorem opsOf32_eq : opsOf 32 =
    [DrawOp.ellipse ⟨5, 5, 27, 27⟩ maneColor (some (brownColor, 0)),
     DrawOp.ellipse ⟨9, 9, 23, 23⟩ faceColor (some (brownColor, 0)),
     DrawOp.ellipse ⟨10, 9, 14, 13⟩ faceColor (some (brownColor, 0)),
     DrawOp.ellipse ⟨18, 9, 22, 13⟩ faceColor (some (brownColor, 0)),
     DrawOp.ellipse ⟨11, 10, 13, 12⟩ innerEarColor none,
     DrawOp.ellipse ⟨19, 10, 21, 12⟩ innerEarColor none,
     DrawOp.ellipse ⟨13, 14, 15, 16⟩ eyeColor none,
     DrawOp.ellipse ⟨17, 14, 19, 16⟩ eyeColor none,
     DrawOp.ellipse ⟨14, 15, 14, 15⟩ whiteColor none,
     DrawOp.ellipse ⟨18, 15, 18, 15⟩ whiteColor none,
     DrawOp.ellipse ⟨16, 16, 16, 16⟩ brownColor none,
     DrawOp.arc ⟨15, 17, 17, 19⟩ 0 180 brownColor 0,
     DrawOp.line 9 16 7 16 brownColor 0,
     DrawOp.line 9 16 7 16 brownColor 0,
     DrawOp.line 9 16 7 16 brownColor 0,
     DrawOp.line 23 16 25 16 brownColor 0,
     DrawOp.line 23 16 25 16 brownColor 0,
     DrawOp.line 23 16 25 16 brownColor 0] := by
  simp only [opsOf, List.map_cons, List.map_nil, pyInt180, pyInt120, pyInt80, pyInt70,
    pyInt40, pyInt35, pyInt30, pyInt25, pyInt20, pyInt15, pyInt10, pyInt8, pyInt6,
    pyInt4, pyInt3, pyIntNeg10, pyIntZeroOff, pyIntPos10]
  norm_num

theorem opsOf512_eq : opsOf 512 =
    [DrawOp.ellipse ⟨76, 76, 436, 436⟩ maneColor (some (brownColor, 8)),
     DrawOp.ellipse ⟨136, 136, 376, 376⟩ faceColor (some (brownColor, 6)),
     DrawOp.ellipse ⟨146, 136, 226, 216⟩ faceColor (some (brownColor, 4)),
     DrawOp.ellipse ⟨286, 136, 366, 216⟩ faceColor (some (brownColor, 4)),
     DrawOp.ellipse ⟨166, 156, 206, 196⟩ innerEarColor none,
     DrawOp.ellipse ⟨306, 156, 346, 196⟩ innerEarColor none,
     DrawOp.ellipse ⟨196, 211, 246, 261⟩ eyeColor none,
     DrawOp.ellipse ⟨266, 211, 316, 261⟩ eyeColor none,
     DrawOp.ellipse ⟨205, 220, 221, 236⟩ whiteColor none,
     DrawOp.ellipse ⟨275, 220, 291, 236⟩ whiteColor none,
     DrawOp.ellipse ⟨241, 251, 271, 281⟩ brownColor none,
     DrawOp.arc ⟨226, 271, 286, 311⟩ 0 180 brownColor 6,
     DrawOp.line 126 256 96 256 brownColor 3,
     DrawOp.line 126 266 96 266 brownColor 3,
     DrawOp.line 126 276 96 276 brownColor 3,
     DrawOp.line 386 256 416 256 brownColor 3,
     DrawOp.line 386 266 416 266 brownColor 3,
     DrawOp.line 386 276 416 276 brownColor 3] := by
  simp only [opsOf, List.map_cons, List.map_nil, pyInt180, pyInt120, pyInt80, pyInt70,
    pyInt40, pyInt35, pyInt30, pyInt25, pyInt20, pyInt15, pyInt10, pyInt8, pyInt6,
    pyInt4, pyInt3, pyIntNeg10, pyIntZeroOff, pyIntPos10]
  norm_num


/-- The base design constants (at reference size 512) that appear
multiplied by scale in the source of create_lion_icon. -/
def baseConsts : List ℚ := [180, 120, 70, 80, 40, 20, 25, 35, 8, 15, 6, 30, 10, 4, 3]

/-- d is a signed sum of int-truncated products of base constants with
scale: the form every coordinate offset from the centre takes. -/
def ScaledOffset (size : ℕ) (d : ℤ) : Prop :=
  ∃ l : List (ℤ × ℚ), (∀ p ∈ l, (p.1 = 1 ∨ p.1 = -1) ∧ p.2 ∈ baseConsts) ∧
    d = (l.map (fun p => p.1 * pyInt (p.2 * scaleQ size))).sum

/-- Defining corner points of an op: the two bounding box corners, or
the two endpoints of a line segment. -/
def opPoints : DrawOp → List (ℤ × ℤ)
  | .ellipse b _ _ => [(b.x0, b.y0), (b.x1, b.y1)]
  | .arc b _ _ _ _ => [(b.x0, b.y0), (b.x1, b.y1)]
  | .line x0 y0 x1 y1 _ _ => [(x0, y0), (x1, y1)]

theorem mem180 : (180 : ℚ) ∈ baseConsts := by norm_num [baseConsts]

theorem mem120 : (120 : ℚ) ∈ baseConsts := by norm_num [baseConsts]

theorem mem70 : (70 : ℚ) ∈ baseConsts := by norm_num [baseConsts]

theorem mem80 : (80 : ℚ) ∈ baseConsts := by norm_num [baseConsts]

theorem mem40 : (40 : ℚ) ∈ baseConsts := by norm_num [baseConsts]

theorem mem20 : (20 : ℚ) ∈ baseConsts := by norm_num [baseConsts]

theorem mem25 : (25 : ℚ) ∈ baseConsts := by norm_num [baseConsts]

theorem mem35 : (35 : ℚ) ∈ baseConsts := by norm_num [baseConsts]

theorem mem8 : (8 : ℚ) ∈ baseConsts := by norm_num [baseConsts]

theorem mem15 : (15 : ℚ) ∈ baseConsts := by norm_num [baseConsts]

theorem mem6 : (6 : ℚ) ∈ baseConsts := by norm_num [baseConsts]

theorem mem30 : (30 : ℚ) ∈ baseConsts := by norm_num [baseConsts]

theorem mem10 : (10 : ℚ) ∈ baseConsts := by norm_num [baseConsts]

theorem mem4consts : (4 : ℚ) ∈ baseConsts := by norm_num [baseConsts]

theorem mem3 : (3 : ℚ) ∈ baseConsts := by norm_num [baseConsts]

/-- int(-10 * scale) equals the negation of int(10 * scale): truncation
toward zero is odd. -/
theorem pyInt_m10_eq (s : ℕ) :
    pyInt (((-10 : ℤ) : ℚ) * scaleQ s) = -pyInt (10 * scaleQ s) := by
  have h : (((-10 : ℤ) : ℚ)) * scaleQ s = -((10 : ℚ) * scaleQ s) := by push_cast; ring
  rw [h, pyInt_neg]

theorem pyInt_p10_eq (s : ℕ) :
    pyInt (((10 : ℤ) : ℚ) * scaleQ s) = pyInt (10 * scaleQ s) := by
  norm_num

theorem so_one (size : ℕ) (e1 : ℤ) (b1 : ℚ) (he1 : e1 = 1 ∨ e1 = -1)
    (hb1 : b1 ∈ baseConsts) (d : ℤ) (hd : d = e1 * pyInt (b1 * scaleQ size)) :
    ScaledOffset size d := by
  refine ⟨[(e1, b1)], ?_, ?_⟩
  · intro p hp
    simp only [List.mem_singleton] at hp
    subst hp
    exact ⟨he1, hb1⟩
  · simpa using hd

theorem so_two (size : ℕ) (e1 : ℤ) (b1 : ℚ) (e2 : ℤ) (b2 : ℚ)
    (he1 : e1 = 1 ∨ e1 = -1) (he2 : e2 = 1 ∨ e2 = -1)
    (hb1 : b1 ∈ baseConsts) (hb2 : b2 ∈ baseConsts) (d : ℤ)
    (hd : d = e1 * pyInt (b1 * scaleQ size) + e2 * pyInt (b2 * scaleQ size)) :
    ScaledOffset size d := by
  refine ⟨[(e1, b1), (e2, b2)], ?_, ?_⟩
  · intro p hp
    simp only [List.mem_cons, List.not_mem_nil, or_false] at hp
    rcases hp with rfl | rfl
    · exact ⟨he1, hb1⟩
    · exact ⟨he2, hb2⟩
  · simpa using hd

theorem so_three (size : ℕ) (e1 : ℤ) (b1 : ℚ) (e2 : ℤ) (b2 : ℚ) (e3 : ℤ) (b3 : ℚ)
    (he1 : e1 = 1 ∨ e1 = -1) (he2 : e2 = 1 ∨ e2 = -1) (he3 : e3 = 1 ∨ e3 = -1)
    (hb1 : b1 ∈ baseConsts) (hb2 : b2 ∈ baseConsts) (hb3 : b3 ∈ baseConsts) (d : ℤ)
    (hd : d = e1 * pyInt (b1 * scaleQ size) + e2 * pyInt (b2 * scaleQ size) +
      e3 * pyInt (b3 * scaleQ size)) :
    ScaledOffset size d := by
  refine ⟨[(e1, b1), (e2, b2), (e3, b3)], ?_, ?_⟩
  · intro p hp
    simp only [List.mem_cons, List.not_mem_nil, or_false] at hp
    rcases hp with rfl | rfl | rfl
    · exact ⟨he1, hb1⟩
    · exact ⟨he2, hb2⟩
    · exact ⟨he3, hb3⟩
  · simpa [add_assoc] using hd
theorem opsOf_offsets (size : ℕ) : ∀ op ∈ opsOf size, ∀ pt ∈ opPoints op,
    ScaledOffset size (pt.1 - ((size / 2 : ℕ) : ℤ)) ∧
    ScaledOffset size (pt.2 - ((size / 2 : ℕ) : ℤ)) := by
  intro op hop
  simp only [opsOf, List.map_cons, List.map_nil, List.cons_append, List.nil_append,
    List.mem_cons, List.not_mem_nil, or_false] at hop
  rcases hop with rfl | rfl | rfl | rfl | rfl | rfl | rfl | rfl | rfl | rfl | rfl | rfl | rfl | rfl | rfl | rfl | rfl | rfl
  case _ =>
    intro pt hpt
    simp only [opPoints, List.mem_cons, List.not_mem_nil, or_false, pyInt_m10_eq,
      pyInt_p10_eq, pyIntZeroOff] at hpt
    rcases hpt with rfl | rfl <;> refine ⟨?_, ?_⟩ <;> dsimp only
    · exact so_one size (-1) 180 (Or.inr rfl) mem180 _ (by ring)
    · exact so_one size (-1) 180 (Or.inr rfl) mem180 _ (by ring)
    · exact so_one size 1 180 (Or.inl rfl) mem180 _ (by ring)
    · exact so_one size 1 180 (Or.inl rfl) mem180 _ (by ring)
  case _ =>
    intro pt hpt
    simp only [opPoints, List.mem_cons, List.not_mem_nil, or_false, pyInt_m10_eq,
      pyInt_p10_eq, pyIntZeroOff] at hpt
    rcases hpt with rfl | rfl <;> refine ⟨?_, ?_⟩ <;> dsimp only
    · exact so_one size (-1) 120 (Or.inr rfl) mem120 _ (by ring)
    · exact so_one size (-1) 120 (Or.inr rfl) mem120 _ (by ring)
    · exact so_one size 1 120 (Or.inl rfl) mem120 _ (by ring)
    · exact so_one size 1 120 (Or.inl rfl) mem120 _ (by ring)
  case _ =>
    intro pt hpt
    simp only [opPoints, List.mem_cons, List.not_mem_nil, or_false, pyInt_m10_eq,
      pyInt_p10_eq, pyIntZeroOff] at hpt
    rcases hpt with rfl | rfl <;> refine ⟨?_, ?_⟩ <;> dsimp only
    · exact so_two size (-1) 70 (-1) 40 (Or.inr rfl) (Or.inr rfl) mem70 mem40 _ (by ring)
    · exact so_two size (-1) 80 (-1) 40 (Or.inr rfl) (Or.inr rfl) mem80 mem40 _ (by ring)
    · exact so_two size (-1) 70 1 40 (Or.inr rfl) (Or.inl rfl) mem70 mem40 _ (by ring)
    · exact so_two size (-1) 80 1 40 (Or.inr rfl) (Or.inl rfl) mem80 mem40 _ (by ring)
  case _ =>
    intro pt hpt
    simp only [opPoints, List.mem_cons, List.not_mem_nil, or_false, pyInt_m10_eq,
      pyInt_p10_eq, pyIntZeroOff] at hpt
    rcases hpt with rfl | rfl <;> refine ⟨?_, ?_⟩ <;> dsimp only
    · exact so_two size 1 70 (-1) 40 (Or.inl rfl) (Or.inr rfl) mem70 mem40 _ (by ring)
    · exact so_two size (-1) 80 (-1) 40 (Or.inr rfl) (Or.inr rfl) mem80 mem40 _ (by ring)
    · exact so_two size 1 70 1 40 (Or.inl rfl) (Or.inl rfl) mem70 mem40 _ (by ring)
    · exact so_two size (-1) 80 1 40 (Or.inr rfl) (Or.inl rfl) mem80 mem40 _ (by ring)
  case _ =>
    intro pt hpt
    simp only [opPoints, List.mem_cons, List.not_mem_nil, or_false, pyInt_m10_eq,
      pyInt_p10_eq, pyIntZeroOff] at hpt
    rcases hpt with rfl | rfl <;> refine ⟨?_, ?_⟩ <;> dsimp only
    · exact so_two size (-1) 70 (-1) 20 (Or.inr rfl) (Or.inr rfl) mem70 mem20 _ (by ring)
    · exact so_two size (-1) 80 (-1) 20 (Or.inr rfl) (Or.inr rfl) mem80 mem20 _ (by ring)
    · exact so_two size (-1) 70 1 20 (Or.inr rfl) (Or.inl rfl) mem70 mem20 _ (by ring)
    · exact so_two size (-1) 80 1 20 (Or.inr rfl) (Or.inl rfl) mem80 mem20 _ (by ring)
  case _ =>
    intro pt hpt
    simp only [opPoints, List.mem_cons, List.not_mem_nil, or_false, pyInt_m10_eq,
      pyInt_p10_eq, pyIntZeroOff] at hpt
    rcases hpt with rfl | rfl <;> refine ⟨?_, ?_⟩ <;> dsimp only
    · exact so_two size 1 70 (-1) 20 (Or.inl rfl) (Or.inr rfl) mem70 mem20 _ (by ring)
    · exact so_two size (-1) 80 (-1) 20 (Or.inr rfl) (Or.inr rfl) mem80 mem20 _ (by ring)
    · exact so_two size 1 70 1 20 (Or.inl rfl) (Or.inl rfl) mem70 mem20 _ (by ring)
    · exact so_two size (-1) 80 1 20 (Or.inr rfl) (Or.inl rfl) mem80 mem20 _ (by ring)
  case _ =>
    intro pt hpt
    simp only [opPoints, List.mem_cons, List.not_mem_nil, or_false, pyInt_m10_eq,
      pyInt_p10_eq, pyIntZeroOff] at hpt
    rcases hpt with rfl | rfl <;> refine ⟨?_, ?_⟩ <;> dsimp only
    · exact so_two size (-1) 35 (-1) 25 (Or.inr rfl) (Or.inr rfl) mem35 mem25 _ (by ring)
    · exact so_two size (-1) 20 (-1) 25 (Or.inr rfl) (Or.inr rfl) mem20 mem25 _ (by ring)
    · exact so_two size (-1) 35 1 25 (Or.inr rfl) (Or.inl rfl) mem35 mem25 _ (by ring)
    · exact so_two size (-1) 20 1 25 (Or.inr rfl) (Or.inl rfl) mem20 mem25 _ (by ring)
  case _ =>
    intro pt hpt
    simp only [opPoints, List.mem_cons, List.not_mem_nil, or_false, pyInt_m10_eq,
      pyInt_p10_eq, pyIntZeroOff] at hpt
    rcases hpt with rfl | rfl <;> refine ⟨?_, ?_⟩ <;> dsimp only
    · exact so_two size 1 35 (-1) 25 (Or.inl rfl) (Or.inr rfl) mem35 mem25 _ (by ring)
    · exact so_two size (-1) 20 (-1) 25 (Or.inr rfl) (Or.inr rfl) mem20 mem25 _ (by ring)
    · exact so_two size 1 35 1 25 (Or.inl rfl) (Or.inl rfl) mem35 mem25 _ (by ring)
    · exact so_two size (-1) 20 1 25 (Or.inr rfl) (Or.inl rfl) mem20 mem25 _ (by ring)
  case _ =>
    intro pt hpt
    simp only [opPoints, List.mem_cons, List.not_mem_nil, or_false, pyInt_m10_eq,
      pyInt_p10_eq, pyIntZeroOff] at hpt
    rcases hpt with rfl | rfl <;> refine ⟨?_, ?_⟩ <;> dsimp only
    · exact so_three size (-1) 35 (-1) 8 (-1) 8 (Or.inr rfl) (Or.inr rfl) (Or.inr rfl) mem35 mem8 mem8 _ (by ring)
    · exact so_three size (-1) 20 (-1) 8 (-1) 8 (Or.inr rfl) (Or.inr rfl) (Or.inr rfl) mem20 mem8 mem8 _ (by ring)
    · exact so_three size (-1) 35 (-1) 8 1 8 (Or.inr rfl) (Or.inr rfl) (Or.inl rfl) mem35 mem8 mem8 _ (by ring)
    · exact so_three size (-1) 20 (-1) 8 1 8 (Or.inr rfl) (Or.inr rfl) (Or.inl rfl) mem20 mem8 mem8 _ (by ring)
  case _ =>
    intro pt hpt
    simp only [opPoints, List.mem_cons, List.not_mem_nil, or_false, pyInt_m10_eq,
      pyInt_p10_eq, pyIntZeroOff] at hpt
    rcases hpt with rfl | rfl <;> refine ⟨?_, ?_⟩ <;> dsimp only
    · exact so_three size 1 35 (-1) 8 (-1) 8 (Or.inl rfl) (Or.inr rfl) (Or.inr rfl) mem35 mem8 mem8 _ (by ring)
    · exact so_three size (-1) 20 (-1) 8 (-1) 8 (Or.inr rfl) (Or.inr rfl) (Or.inr rfl) mem20 mem8 mem8 _ (by ring)
    · exact so_three size 1 35 (-1) 8 1 8 (Or.inl rfl) (Or.inr rfl) (Or.inl rfl) mem35 mem8 mem8 _ (by ring)
    · exact so_three size (-1) 20 (-1) 8 1 8 (Or.inr rfl) (Or.inr rfl) (Or.inl rfl) mem20 mem8 mem8 _ (by ring)
  case _ =>
    intro pt hpt
    simp only [opPoints, List.mem_cons, List.not_mem_nil, or_false, pyInt_m10_eq,
      pyInt_p10_eq, pyIntZeroOff] at hpt
    rcases hpt with rfl | rfl <;> refine ⟨?_, ?_⟩ <;> dsimp only
    · exact so_one size (-1) 15 (Or.inr rfl) mem15 _ (by ring)
    · exact so_two size 1 10 (-1) 15 (Or.inl rfl) (Or.inr rfl) mem10 mem15 _ (by ring)
    · exact so_one size 1 15 (Or.inl rfl) mem15 _ (by ring)
    · exact so_two size 1 10 1 15 (Or.inl rfl) (Or.inl rfl) mem10 mem15 _ (by ring)
  case _ =>
    intro pt hpt
    simp only [opPoints, List.mem_cons, List.not_mem_nil, or_false, pyInt_m10_eq,
      pyInt_p10_eq, pyIntZeroOff] at hpt
    rcases hpt with rfl | rfl <;> refine ⟨?_, ?_⟩ <;> dsimp only
    · exact so_one size (-1) 30 (Or.inr rfl) mem30 _ (by ring)
    · exact so_two size 1 35 (-1) 20 (Or.inl rfl) (Or.inr rfl) mem35 mem20 _ (by ring)
    · exact so_one size 1 30 (Or.inl rfl) mem30 _ (by ring)
    · exact so_two size 1 35 1 20 (Or.inl rfl) (Or.inl rfl) mem35 mem20 _ (by ring)
  case _ =>
    intro pt hpt
    simp only [opPoints, List.mem_cons, List.not_mem_nil, or_false, pyInt_m10_eq,
      pyInt_p10_eq, pyIntZeroOff] at hpt
    rcases hpt with rfl | rfl <;> refine ⟨?_, ?_⟩ <;> dsimp only
    · exact so_two size (-1) 120 (-1) 10 (Or.inr rfl) (Or.inr rfl) mem120 mem10 _ (by ring)
    · exact so_two size 1 10 (-1) 10 (Or.inl rfl) (Or.inr rfl) mem10 mem10 _ (by ring)
    · exact so_two size (-1) 120 (-1) 40 (Or.inr rfl) (Or.inr rfl) mem120 mem40 _ (by ring)
    · exact so_two size 1 10 (-1) 10 (Or.inl rfl) (Or.inr rfl) mem10 mem10 _ (by ring)
  case _ =>
    intro pt hpt
    simp only [opPoints, List.mem_cons, List.not_mem_nil, or_false, pyInt_m10_eq,
      pyInt_p10_eq, pyIntZeroOff] at hpt
    rcases hpt with rfl | rfl <;> refine ⟨?_, ?_⟩ <;> dsimp only
    · exact so_two size (-1) 120 (-1) 10 (Or.inr rfl) (Or.inr rfl) mem120 mem10 _ (by ring)
    · exact so_one size 1 10 (Or.inl rfl) mem10 _ (by ring)
    · exact so_two size (-1) 120 (-1) 40 (Or.inr rfl) (Or.inr rfl) mem120 mem40 _ (by ring)
    · exact so_one size 1 10 (Or.inl rfl) mem10 _ (by ring)
  case _ =>
    intro pt hpt
    simp only [opPoints, List.mem_cons, List.not_mem_nil, or_false, pyInt_m10_eq,
      pyInt_p10_eq, pyIntZeroOff] at hpt
    rcases hpt with rfl | rfl <;> refine ⟨?_, ?_⟩ <;> dsimp only
    · exact so_two size (-1) 120 (-1) 10 (Or.inr rfl) (Or.inr rfl) mem120 mem10 _ (by ring)
    · exact so_two size 1 10 1 10 (Or.inl rfl) (Or.inl rfl) mem10 mem10 _ (by ring)
    · exact so_two size (-1) 120 (-1) 40 (Or.inr rfl) (Or.inr rfl) mem120 mem40 _ (by ring)
    · exact so_two size 1 10 1 10 (Or.inl rfl) (Or.inl rfl) mem10 mem10 _ (by ring)
  case _ =>
    intro pt hpt
    simp only [opPoints, List.mem_cons, List.not_mem_nil, or_false, pyInt_m10_eq,
      pyInt_p10_eq, pyIntZeroOff] at hpt
    rcases hpt with rfl | rfl <;> refine ⟨?_, ?_⟩ <;> dsimp only
    · exact so_two size 1 120 1 10 (Or.inl rfl) (Or.inl rfl) mem120 mem10 _ (by ring)
    · exact so_two size 1 10 (-1) 10 (Or.inl rfl) (Or.inr rfl) mem10 mem10 _ (by ring)
    · exact so_two size 1 120 1 40 (Or.inl rfl) (Or.inl rfl) mem120 mem40 _ (by ring)
    · exact so_two size 1 10 (-1) 10 (Or.inl rfl) (Or.inr rfl) mem10 mem10 _ (by ring)
  case _ =>
    intro pt hpt
    simp only [opPoints, List.mem_cons, List.not_mem_nil, or_false, pyInt_m10_eq,
      pyInt_p10_eq, pyIntZeroOff] at hpt
    rcases hpt with rfl | rfl <;> refine ⟨?_, ?_⟩ <;> dsimp only
    · exact so_two size 1 120 1 10 (Or.inl rfl) (Or.inl rfl) mem120 mem10 _ (by ring)
    · exact so_one size 1 10 (Or.inl rfl) mem10 _ (by ring)
    · exact so_two size 1 120 1 40 (Or.inl rfl) (Or.inl rfl) mem120 mem40 _ (by ring)
    · exact so_one size 1 10 (Or.inl rfl) mem10 _ (by ring)
  case _ =>
    intro pt hpt
    simp only [opPoints, List.mem_cons, List.not_mem_nil, or_false, pyInt_m10_eq,
      pyInt_p10_eq, pyIntZeroOff] at hpt
    rcases hpt with rfl | rfl <;> refine ⟨?_, ?_⟩ <;> dsimp only
    · exact so_two size 1 120 1 10 (Or.inl rfl) (Or.inl rfl) mem120 mem10 _ (by ring)
    · exact so_two size 1 10 1 10 (Or.inl rfl) (Or.inl rfl) mem10 mem10 _ (by ring)
    · exact so_two size 1 120 1 40 (Or.inl rfl) (Or.inl rfl) mem120 mem40 _ (by ring)
    · exact so_two size 1 10 1 10 (Or.inl rfl) (Or.inl rfl) mem10 mem10 _ (by ring)

/-- Stroke width parameters of an op (outline, arc or line width). -/
def opWidths : DrawOp → List ℤ
  | .ellipse _ _ none => []
  | .ellipse _ _ (some (_, w)) => [w]
  | .arc _ _ _ _ w => [w]
  | .line _ _ _ _ _ w => [w]

/-- Bounding box extents (equal to twice the scaled radii) of an op. -/
def opExtents : DrawOp → List ℤ
  | .ellipse b _ _ => [b.x1 - b.x0, b.y1 - b.y0]
  | .arc b _ _ _ _ => [b.x1 - b.x0, b.y1 - b.y0]
  | .line _ _ _ _ _ _ => []

theorem opsOf_widths (size : ℕ) : ∀ op ∈ opsOf size, ∀ w ∈ opWidths op,
    ∃ b ∈ baseConsts, w = pyInt (b * scaleQ size) := by
  intro op hop
  simp only [opsOf, List.map_cons, List.map_nil, List.cons_append, List.nil_append,
    List.mem_cons, List.not_mem_nil, or_false] at hop
  rcases hop with rfl | rfl | rfl | rfl | rfl | rfl | rfl | rfl | rfl | rfl | rfl | rfl |
    rfl | rfl | rfl | rfl | rfl | rfl <;>
    intro w hw <;>
    simp only [opWidths, List.mem_cons, List.not_mem_nil, or_false] at hw <;>
    subst hw <;>
    first
      | exact ⟨8, mem8, rfl⟩
      | exact ⟨6, mem6, rfl⟩
      | exact ⟨4, mem4consts, rfl⟩
      | exact ⟨3, mem3, rfl⟩

theorem opsOf_extents (size : ℕ) : ∀ op ∈ opsOf size, ∀ d ∈ opExtents op,
    ∃ b ∈ baseConsts, d = 2 * pyInt (b * scaleQ size) := by
  intro op hop
  simp only [opsOf, List.map_cons, List.map_nil, List.cons_append, List.nil_append,
    List.mem_cons, List.not_mem_nil, or_false] at hop
  rcases hop with rfl | rfl | rfl | rfl | rfl | rfl | rfl | rfl | rfl | rfl | rfl | rfl |
    rfl | rfl | rfl | rfl | rfl | rfl <;>
    intro d hd <;>
    simp only [opExtents, List.mem_cons, List.not_mem_nil, or_false] at hd
  case _ => rcases hd with rfl | rfl <;> exact ⟨180, mem180, by ring⟩
  case _ => rcases hd with rfl | rfl <;> exact ⟨120, mem120, by ring⟩
  case _ => rcases hd with rfl | rfl <;> exact ⟨40, mem40, by ring⟩
  case _ => rcases hd with rfl | rfl <;> exact ⟨40, mem40, by ring⟩
  case _ => rcases hd with rfl | rfl <;> exact ⟨20, mem20, by ring⟩
  case _ => rcases hd with rfl | rfl <;> exact ⟨20, mem20, by ring⟩
  case _ => rcases hd with rfl | rfl <;> exact ⟨25, mem25, by ring⟩
  case _ => rcases hd with rfl | rfl <;> exact ⟨25, mem25, by ring⟩
  case _ => rcases hd with rfl | rfl <;> exact ⟨8, mem8, by ring⟩
  case _ => rcases hd with rfl | rfl <;> exact ⟨8, mem8, by ring⟩
  case _ => rcases hd with rfl | rfl <;> exact ⟨15, mem15, by ring⟩
  case _ =>
    rcases hd with rfl | rfl
    · exact ⟨30, mem30, by ring⟩
    · exact ⟨20, mem20, by ring⟩
theorem mainGen_run (r : ℕ → Except String Canvas) (c192 c512 c32 c16 : Canvas)
    (h192 : r 192 = .ok c192) (h512 : r 512 = .ok c512)
    (h32 : r 32 = .ok c32) (h16 : r 16 = .ok c16) :
    mainGen r emptyFS = .ok ⟨["client", "client/assets", "client/assets/icons"],
      [("client/assets/icons/icon-192.png", .png c192),
       ("client/assets/icons/icon-512.png", .png c512),
       ("client/favicon-32x32.png", .png c32),
       ("client/favicon-16x16.png", .png c16),
       ("client/favicon.ico", .ico c32 [(16, 16), (32, 32)])]⟩ := by
  simp only [mainGen, sizes_and_paths, List.foldlM, h192, h512, h32, h16]
  rfl

/-- An outline of nonpositive width paints no pixel at all. -/
theorem inRing_empty {b : Box} {w : ℤ} (hw : w ≤ 0) (x y : ℤ) : ¬ inRing b w x y :=
  fun h => absurd h.1 (by omega)

theorem lionCorners3 : ∃ c, create_lion_icon 3 = .ok c ∧ c.pix 0 0 = backgroundColor ∧
    c.pix ((3 : ℤ) - 1) 0 = backgroundColor ∧ c.pix 0 ((3 : ℤ) - 1) = backgroundColor ∧
    c.pix ((3 : ℤ) - 1) ((3 : ℤ) - 1) = backgroundColor := by
  unfold create_lion_icon
  rw [opsOf3_eq]
  refine ⟨_, rfl, ?_, ?_, ?_, ?_⟩ <;> decide

theorem lionCorners4 : ∃ c, create_lion_icon 4 = .ok c ∧ c.pix 0 0 = backgroundColor ∧
    c.pix ((4 : ℤ) - 1) 0 = backgroundColor ∧ c.pix 0 ((4 : ℤ) - 1) = backgroundColor ∧
    c.pix ((4 : ℤ) - 1) ((4 : ℤ) - 1) = backgroundColor := by
  unfold create_lion_icon
  rw [opsOf4_eq]
  refine ⟨_, rfl, ?_, ?_, ?_, ?_⟩ <;> decide

theorem lionCorners5 : ∃ c, create_lion_icon 5 = .ok c ∧ c.pix 0 0 = backgroundColor ∧
    c.pix ((5 : ℤ) - 1) 0 = backgroundColor ∧ c.pix 0 ((5 : ℤ) - 1) = backgroundColor ∧
    c.pix ((5 : ℤ) - 1) ((5 : ℤ) - 1) = backgroundColor := by
  unfold create_lion_icon
  rw [opsOf5_eq]
  refine ⟨_, rfl, ?_, ?_, ?_, ?_⟩ <;> decide

theorem lionCorners6 : ∃ c, create_lion_icon 6 = .ok c ∧ c.pix 0 0 = backgroundColor ∧
    c.pix ((6 : ℤ) - 1) 0 = backgroundColor ∧ c.pix 0 ((6 : ℤ) - 1) = backgroundColor ∧
    c.pix ((6 : ℤ) - 1) ((6 : ℤ) - 1) = backgroundColor := by
  unfold create_lion_icon
  rw [opsOf6_eq]
  refine ⟨_, rfl, ?_, ?_, ?_, ?_⟩ <;> decide

/-- C1: for every positive integer size, create_lion_icon(size) returns a
canvas of exactly size x size pixels in which every pixel's alpha channel
equals 255 (fully opaque). -/
theorem spec_c1_opaque_square_canvas (size : ℕ) (hpos : 1 ≤ size) :
    ∃ c, create_lion_icon size = .ok c ∧ c.size = size ∧
      ∀ x y : ℤ, 0 ≤ x → x < (size : ℤ) → 0 ≤ y → y < (size : ℤ) →
        (c.pix x y).a = 255 := by
  obtain ⟨c, hc⟩ := render_ok size
  exact ⟨c, hc, runOps_size (opsOf size) _ c hc, fun x y _ _ _ _ =>
    runOps_alpha (opsOf size) _ c (opsOf_colorsFull size) (fun _ _ => rfl) hc x y⟩

/-- Witness for C1 at size 5. -/
theorem spec_c1_witness : ∃ c, create_lion_icon 5 = .ok c ∧ c.size = 5 ∧
    ∀ x y : ℤ, 0 ≤ x → x < (5 : ℤ) → 0 ≤ y → y < (5 : ℤ) → (c.pix x y).a = 255 :=
  spec_c1_opaque_square_canvas 5 (by decide)

/-- C2: the driver run against an empty working directory writes exactly
the five output files, each of positive byte length, the ICO container
holding exactly the frames 16x16 and 32x32; and the directory creation is
idempotent (running it again on the resulting state raises no error and
changes nothing). -/
theorem spec_c2_driver_outputs : ∃ fs, mainRun emptyFS = .ok fs ∧
    fs.files.map Prod.fst = ["client/assets/icons/icon-192.png",
      "client/assets/icons/icon-512.png", "client/favicon-32x32.png",
      "client/favicon-16x16.png", "client/favicon.ico"] ∧
    (∀ e ∈ fs.files, 0 < byteLenLB e.2) ∧
    (∃ d, fs.files.lookup "client/favicon.ico" = some d ∧
      frameSizes d = [(16, 16), (32, 32)]) ∧
    makedirs fs "client/assets/icons" true = .ok fs := by
  obtain ⟨c192, h192⟩ := render_ok 192
  obtain ⟨c512, h512⟩ := render_ok 512
  obtain ⟨c32, h32⟩ := render_ok 32
  obtain ⟨c16, h16⟩ := render_ok 16
  refine ⟨_, mainGen_run create_lion_icon c192 c512 c32 c16 h192 h512 h32 h16,
    rfl, ?_, ⟨_, rfl, rfl⟩, rfl⟩
  intro e he
  simp only [List.mem_cons, List.not_mem_nil, or_false] at he
  rcases he with rfl | rfl | rfl | rfl | rfl <;> norm_num [byteLenLB]

/-- C3 (amended to size ≥ 3): the four corner pixels of the rendered
canvas equal the background color, the corners lying outside every
drawn shape. -/
theorem spec_c3_corners_background (size : ℕ) (hs : 3 ≤ size) :
    ∃ c, create_lion_icon size = .ok c ∧ c.pix 0 0 = backgroundColor ∧
      c.pix ((size : ℤ) - 1) 0 = backgroundColor ∧
      c.pix 0 ((size : ℤ) - 1) = backgroundColor ∧
      c.pix ((size : ℤ) - 1) ((size : ℤ) - 1) = backgroundColor := by
  by_cases h7 : 7 ≤ size
  · obtain ⟨c, hc⟩ := render_ok size
    have hbg : ∀ x y : ℤ, (x = 0 ∨ x = (size : ℤ) - 1) → (y = 0 ∨ y = (size : ℤ) - 1) →
        c.pix x y = backgroundColor := fun x y hx hy =>
      runOps_pix_of_uncovered (opsOf size) _ c x y
        (fun op hop => corner_untouched size h7 op hop x y hx hy) hc
    exact ⟨c, hc, hbg 0 0 (Or.inl rfl) (Or.inl rfl), hbg _ _ (Or.inr rfl) (Or.inl rfl),
      hbg _ _ (Or.inl rfl) (Or.inr rfl), hbg _ _ (Or.inr rfl) (Or.inr rfl)⟩
  · have h7n : size < 7 := by omega
    interval_cases size
    · exact lionCorners3
    · exact lionCorners4
    · exact lionCorners5
    · exact lionCorners6

/-- Counterexample to C3 as stated: at size 1 the single pixel (which is
all four corners) is painted brown by the nose and whiskers, and at size 2
the corner pixel (1, 1) is painted, so the corners do not equal the
background color for every size ≥ 1. -/
theorem spec_c3_counterexample : ∃ ca cb, create_lion_icon 1 = .ok ca ∧
    ca.pix 0 0 ≠ backgroundColor ∧ create_lion_icon 2 = .ok cb ∧
    cb.pix 1 1 ≠ backgroundColor := by
  unfold create_lion_icon
  rw [opsOf1_eq, opsOf2_eq]
  refine ⟨_, _, rfl, ?_, rfl, ?_⟩ <;> decide

/-- Witness for C3 at size 3. -/
theorem spec_c3_witness : ∃ c, create_lion_icon 3 = .ok c ∧ c.pix 0 0 = backgroundColor ∧
    c.pix ((3 : ℤ) - 1) 0 = backgroundColor ∧ c.pix 0 ((3 : ℤ) - 1) = backgroundColor ∧
    c.pix ((3 : ℤ) - 1) ((3 : ℤ) - 1) = backgroundColor :=
  spec_c3_corners_background 3 (by decide)

/-- C4: every shape primitive's bounding box corners and endpoints are the
center (size // 2, size // 2) plus signed sums of int-truncated scaled
base constants. -/
theorem spec_c4_common_center (size : ℕ) : ∀ op ∈ opsOf size, ∀ pt ∈ opPoints op,
    ScaledOffset size (pt.1 - ((size / 2 : ℕ) : ℤ)) ∧
    ScaledOffset size (pt.2 - ((size / 2 : ℕ) : ℤ)) :=
  opsOf_offsets size

/-- Witness for C4: the mane bounding box corner of render(512). -/
theorem spec_c4_witness : ScaledOffset 512 ((76 : ℤ) - ((512 / 2 : ℕ) : ℤ)) ∧
    ScaledOffset 512 ((76 : ℤ) - ((512 / 2 : ℕ) : ℤ)) :=
  spec_c4_common_center 512
    (DrawOp.ellipse ⟨76, 76, 436, 436⟩ maneColor (some (brownColor, 8)))
    (by rw [opsOf512_eq]; exact List.mem_cons_self _ _) (76, 76) (by decide)

/-- C5: in render(512) the mane ellipse has bounding box centered at
(256, 256) with radius 180 and outline width 8; in render(16) the scale is
1 / 32 = 0.03125 and the mane radius truncates to 5. -/
theorem spec_c5_concrete_sizes :
    (opsOf 512).head? = some (DrawOp.ellipse
      ⟨256 - 180, 256 - 180, 256 + 180, 256 + 180⟩ maneColor (some (brownColor, 8))) ∧
    scaleQ 16 = 1 / 32 ∧ pyInt (180 * scaleQ 16) = 5 := by
  refine ⟨?_, ?_, ?_⟩
  · rw [opsOf512_eq]; decide
  · unfold scaleQ; norm_num
  · rw [pyInt180]; decide

/-- C6: every stroke width is an int-truncated scaled base constant, every
bounding box extent is twice one, every box corner offset from the center
is a signed sum of them, and truncation happens at each use site: at
size 5 the separately truncated 70 and 40 offsets differ from truncating
their 110 sum. -/
theorem spec_c6_per_use_truncation :
    (∀ size : ℕ, ∀ op ∈ opsOf size, ∀ w ∈ opWidths op,
      ∃ b ∈ baseConsts, w = pyInt (b * scaleQ size)) ∧
    (∀ size : ℕ, ∀ op ∈ opsOf size, ∀ d ∈ opExtents op,
      ∃ b ∈ baseConsts, d = 2 * pyInt (b * scaleQ size)) ∧
    (∀ size : ℕ, ∀ op ∈ opsOf size, ∀ pt ∈ opPoints op,
      ScaledOffset size (pt.1 - ((size / 2 : ℕ) : ℤ)) ∧
      ScaledOffset size (pt.2 - ((size / 2 : ℕ) : ℤ))) ∧
    pyInt (70 * scaleQ 5) + pyInt (40 * scaleQ 5) ≠ pyInt (110 * scaleQ 5) := by
  refine ⟨opsOf_widths, opsOf_extents, opsOf_offsets, ?_⟩
  rw [pyInt70, pyInt40, show (110 : ℚ) = ((110 : ℕ) : ℚ) from by norm_num, pyInt_cast_mul]
  decide

/-- Witness for C6: the mane outline width of render(512). -/
theorem spec_c6_witness : ∃ b ∈ baseConsts, (8 : ℤ) = pyInt (b * scaleQ 512) :=
  spec_c6_per_use_truncation.1 512
    (DrawOp.ellipse ⟨76, 76, 436, 436⟩ maneColor (some (brownColor, 8)))
    (by rw [opsOf512_eq]; exact List.mem_cons_self _ _) 8 (by decide)

/-- C7: create_lion_icon is pure and deterministic: threaded through an
external world it leaves the world unchanged, a second call on the
resulting world returns the identical canvas, and the result does not
depend on the world at all. -/
theorem spec_c7_pure_deterministic (size : ℕ) (fs fs2 : FSState) :
    (renderFS size fs).2 = fs ∧
    (renderFS size ((renderFS size fs).2)).1 = (renderFS size fs).1 ∧
    (renderFS size fs).1 = (renderFS size fs2).1 :=
  ⟨rfl, rfl, rfl⟩

/-- C8: create_lion_icon does not fail at any positive size: every
bounding box it passes to the drawing library is well ordered. -/
theorem spec_c8_no_failure (size : ℕ) (hpos : 1 ≤ size) :
    ∃ c, create_lion_icon size = .ok c :=
  render_ok size

/-- Witness for C8 at size 1. -/
theorem spec_c8_witness : ∃ c, create_lion_icon 1 = .ok c :=
  spec_c8_no_failure 1 (by decide)

/-- C9: the bytes of favicon.ico depend on create_lion_icon(32) alone:
replacing the result of create_lion_icon(16) by any other image leaves
the favicon.ico entry unchanged, and any two renderers agreeing at 32
produce the same favicon.ico entry. -/
theorem spec_c9_favicon_from_32_only :
    (∀ alt : Canvas,
      getFile (mainGen (fun n => if n = 16 then .ok alt else create_lion_icon n) emptyFS)
          "client/favicon.ico" =
        getFile (mainRun emptyFS) "client/favicon.ico") ∧
    (∀ f g : ℕ → Except String Canvas,
      (∀ n, ∃ c, f n = .ok c) → (∀ n, ∃ c, g n = .ok c) → f 32 = g 32 →
      getFile (mainGen f emptyFS) "client/favicon.ico" =
        getFile (mainGen g emptyFS) "client/favicon.ico") := by
  constructor
  · intro alt
    obtain ⟨c192, h192⟩ := render_ok 192
    obtain ⟨c512, h512⟩ := render_ok 512
    obtain ⟨c32, h32⟩ := render_ok 32
    obtain ⟨c16, h16⟩ := render_ok 16
    rw [mainGen_run (fun n => if n = 16 then .ok alt else create_lion_icon n) c192 c512 c32 alt
        (by show (if (192 : ℕ) = 16 then Except.ok alt else create_lion_icon 192) = _;
            rw [if_neg (by decide)]; exact h192)
        (by show (if (512 : ℕ) = 16 then Except.ok alt else create_lion_icon 512) = _;
            rw [if_neg (by decide)]; exact h512)
        (by show (if (32 : ℕ) = 16 then Except.ok alt else create_lion_icon 32) = _;
            rw [if_neg (by decide)]; exact h32)
        (by show (if (16 : ℕ) = 16 then Except.ok alt else create_lion_icon 16) = _;
            rw [if_pos rfl]),
      show mainRun emptyFS = mainGen create_lion_icon emptyFS from rfl,
      mainGen_run create_lion_icon c192 c512 c32 c16 h192 h512 h32 h16]
    rfl
  · intro f g hf hg h32eq
    obtain ⟨a192, ha192⟩ := hf 192
    obtain ⟨a512, ha512⟩ := hf 512
    obtain ⟨a32, ha32⟩ := hf 32
    obtain ⟨a16, ha16⟩ := hf 16
    obtain ⟨b192, hb192⟩ := hg 192
    obtain ⟨b512, hb512⟩ := hg 512
    obtain ⟨b32, hb32⟩ := hg 32
    obtain ⟨b16, hb16⟩ := hg 16
    have hcc : a32 = b32 := by
      rw [ha32, hb32] at h32eq
      exact Except.ok.inj h32eq
    subst hcc
    rw [mainGen_run f a192 a512 a32 a16 ha192 ha512 ha32 ha16,
      mainGen_run g b192 b512 a32 b16 hb192 hb512 hb32 hb16]
    rfl

/-- Witness for C9 with two equal constant renderers. -/
theorem spec_c9_witness :
    getFile (mainGen (fun _ => .ok ⟨1, fun _ _ => backgroundColor⟩) emptyFS)
        "client/favicon.ico" =
      getFile (mainGen (fun _ => .ok ⟨1, fun _ _ => backgroundColor⟩) emptyFS)
        "client/favicon.ico" :=
  spec_c9_favicon_from_32_only.2 _ _ (fun _ => ⟨_, rfl⟩) (fun _ => ⟨_, rfl⟩) rfl

/-- C10: the mane outline width int(8 * scale) is 0 for sizes up to 63,
the face outline width int(6 * scale) up to 85, the ear outline width
int(4 * scale) up to 127; in the 16 and 32 renders every stroke width
parameter is 0, and a width-0 outline ring paints no pixel. -/
theorem spec_c10_zero_outline_widths :
    (∀ s : ℕ, 1 ≤ s → s ≤ 63 → pyInt (8 * scaleQ s) = 0) ∧
    (∀ s : ℕ, 1 ≤ s → s ≤ 85 → pyInt (6 * scaleQ s) = 0) ∧
    (∀ s : ℕ, 1 ≤ s → s ≤ 127 → pyInt (4 * scaleQ s) = 0) ∧
    (∀ s ∈ ([16, 32] : List ℕ), ∀ op ∈ opsOf s, ∀ w ∈ opWidths op, w = 0) ∧
    (∀ (b : Box) (x y : ℤ), ¬ inRing b 0 x y) := by
  refine ⟨?_, ?_, ?_, ?_, fun b x y => inRing_empty le_rfl x y⟩
  · intro s h1 h2; rw [pyInt8]; omega
  · intro s h1 h2; rw [pyInt6]; omega
  · intro s h1 h2; rw [pyInt4]; omega
  · intro s hs op hop w hw
    simp only [List.mem_cons, List.not_mem_nil, or_false] at hs
    rcases hs with rfl | rfl
    · rw [opsOf16_eq] at hop
      simp only [List.mem_cons, List.not_mem_nil, or_false] at hop
      rcases hop with rfl | rfl | rfl | rfl | rfl | rfl | rfl | rfl | rfl | rfl | rfl | rfl |
        rfl | rfl | rfl | rfl | rfl | rfl <;>
        simp only [opWidths, List.mem_cons, List.not_mem_nil, or_false] at hw <;>
        exact hw
    · rw [opsOf32_eq] at hop
      simp only [List.mem_cons, List.not_mem_nil, or_false] at hop
      rcases hop with rfl | rfl | rfl | rfl | rfl | rfl | rfl | rfl | rfl | rfl | rfl | rfl |
        rfl | rfl | rfl | rfl | rfl | rfl <;>
        simp only [opWidths, List.mem_cons, List.not_mem_nil, or_false] at hw <;>
        exact hw

/-- Witness for C10 at the outline-width boundary sizes. -/
theorem spec_c10_witness : pyInt (8 * scaleQ 63) = 0 ∧ pyInt (6 * scaleQ 85) = 0 ∧
    pyInt (4 * scaleQ 127) = 0 :=
  ⟨spec_c10_zero_outline_widths.1 63 (by decide) (by decide),
   spec_c10_zero_outline_widths.2.1 85 (by decide) (by decide),
   spec_c10_zero_outline_widths.2.2.1 127 (by decide) (by decide)⟩
